import Mathlib

/-!
# TradeForge-AI bot fleet state engine — verification development

A shallow embedding of the bot fleet state engine of the TradeForge-AI
dashboard: the data model (`TradingBot` and its owned records), the tick
simulator callback, the lifecycle controller handlers
(`handleDeployBot`, `handleToggleBot`, `handleDeleteBot`,
`handleUpdateBot` and its two call sites `handleSaveAlerts`,
`handleSaveName`), and the fleet query layer (`allActiveAlerts`,
`historyBot`, `processedBots`).

Numbers that are JavaScript `number` values are embedded as rationals,
`Number(x.toFixed(2))` as `toFixed2` (round half toward +∞ at two decimal
places, the idealised decimal semantics of `toFixed`), and
`parseFloat(s) || 0` as `jsParseFloatOr0` (the finite-decimal fragment of
`parseFloat`; the `Infinity` literal is outside the rational domain and
the inputs here come from numeric form fields).  The `Math.random()`
draws of the tick simulator become explicit parameters (`TickDraw`), and
`Date.now()` becomes an explicit clock argument to the deploy handler.
-/

/-- Bot status, from `types.ts` (`'RUNNING' | 'PAUSED' | 'STOPPED'`). -/
inductive BotStatus
  | RUNNING
  | PAUSED
  | STOPPED
deriving DecidableEq

/-- Alert type, from `types.ts` (`'PNL' | 'DOWNTIME' | 'FAILURE'`). -/
inductive AlertType
  | PNL
  | DOWNTIME
  | FAILURE
deriving DecidableEq

/-- Alert severity, from `types.ts` (`'WARNING' | 'CRITICAL'`). -/
inductive AlertSeverity
  | WARNING
  | CRITICAL
deriving DecidableEq

/-- History entry type, from `types.ts`. -/
inductive HistoryType
  | TRADE
  | STATUS_CHANGE
  | ALERT
  | INFO
deriving DecidableEq

/-- Structure `BotAlertSettings` from `types.ts`. -/
structure BotAlertSettings where
  pnlDropThreshold : ℚ
  maxDowntimeMinutes : ℚ
  notifyOnTradeFailure : Bool
deriving DecidableEq

/-- Structure `ActiveAlert` from `types.ts`. -/
structure ActiveAlert where
  id : String
  type : AlertType
  message : String
  severity : AlertSeverity
  timestamp : String
deriving DecidableEq

/-- Structure `BotHistoryEntry` from `types.ts`; the optional `profit` field becomes `Option ℚ`. -/
structure BotHistoryEntry where
  id : String
  timestamp : String
  type : HistoryType
  title : String
  description : String
  profit : Option ℚ
deriving DecidableEq

/-- Structure `TradingBot` from `types.ts`; the optional fields `targetPnl` and
`strategyCode` become `Option`s. -/
structure TradingBot where
  id : String
  name : String
  status : BotStatus
  pnl : ℚ
  pnlPercent : ℚ
  uptime : String
  trades : ℕ
  lastTrade : String
  alertSettings : BotAlertSettings
  activeAlerts : List ActiveAlert
  targetPnl : Option ℚ
  strategyCode : Option String
  history : List BotHistoryEntry
deriving DecidableEq

/-- Model of `Number(x.toFixed(2))`: round to two decimal places.  ECMA-262 `toFixed`
picks the integer `n` minimising `|n / 100 - x|` and on a tie the larger `n`,
which is Mathlib `round` (half toward +∞) of `x * 100`. -/
def toFixed2 (x : ℚ) : ℚ := (round (x * 100) : ℤ) / 100

/-- The `Math.random()` draws consumed by one tick of the simulator for one
bot, in the order the `setInterval` callback in `App` makes them:
`volatility = Math.random() * 8` (so `0 ≤ volatility < 8`),
`dirUp = Math.random() > 0.45`, `hasNewTrade = Math.random() > 0.95`,
`ageTick = Math.random() > 0.9`. -/
structure TickDraw where
  volatility : ℚ
  dirUp : Bool
  hasNewTrade : Bool
  ageTick : Bool

/-- The body of the `setInterval` callback in `App` (`src/unnamed/part_000`,
lines 29–62) for a single bot: a RUNNING bot receives a simulated PnL move,
trade-count update and last-trade label update; any other bot is returned
unchanged. -/
def tickBot (d : TickDraw) (bot : TradingBot) : TradingBot :=
  if bot.status = .RUNNING then
    let change := d.volatility * (if d.dirUp then 1 else -1)
    let newPnl := bot.pnl + change
    let newPercent := newPnl / 10000 * 100
    let lastTradeTime :=
      if d.hasNewTrade then "Just now"
      else if d.ageTick then
        (if bot.lastTrade = "Just now" then "1m ago"
         else if bot.lastTrade = "1m ago" then "2m ago"
         else bot.lastTrade)
      else bot.lastTrade
    { bot with
      pnl := toFixed2 newPnl
      pnlPercent := toFixed2 newPercent
      trades := if d.hasNewTrade then bot.trades + 1 else bot.trades
      lastTrade := lastTradeTime }
  else bot

/-- One simulation tick over the whole store: `currentBots.map (bot => ...)`
where each bot consumes its own fresh random draws, supplied here by
position. -/
def tickStore (ds : ℕ → TickDraw) : ℕ → List TradingBot → List TradingBot
  | _, [] => []
  | i, b :: bs => tickBot (ds i) b :: tickStore ds (i + 1) bs

/-- The new bot record built by `handleDeployBot` (`src/unnamed/part_000`,
lines 82–100); `Date.now()` is the explicit `now` argument. -/
def newBot (now : ℕ) (strategyName description code : String) : TradingBot :=
  { id := toString now
    name := strategyName
    status := .RUNNING
    pnl := 0
    pnlPercent := 0
    uptime := "0m"
    trades := 0
    lastTrade := "Waiting for signal..."
    alertSettings :=
      { pnlDropThreshold := 5
        maxDowntimeMinutes := 60
        notifyOnTradeFailure := true }
    activeAlerts := []
    targetPnl := some 5000
    strategyCode := some code
    history := [] }

/-- Handler `handleDeployBot`: the new bot is prepended, `setBots([newBot, ...bots])`. -/
def handleDeployBot (now : ℕ) (strategyName description code : String)
    (bots : List TradingBot) : List TradingBot :=
  newBot now strategyName description code :: bots

/-- Handler `handleToggleBot` (`src/unnamed/part_000`, lines 105–112): the bot with
the given id gets `status === 'RUNNING' ? 'PAUSED' : 'RUNNING'`; every other
bot is returned as is. -/
def handleToggleBot (id : String) (bots : List TradingBot) : List TradingBot :=
  bots.map fun bot =>
    if bot.id = id then
      { bot with status := if bot.status = .RUNNING then .PAUSED else .RUNNING }
    else bot

/-- Handler `handleDeleteBot` (`src/unnamed/part_000`, lines 114–116):
`bots.filter(b => b.id !== id)`. -/
def handleDeleteBot (id : String) (bots : List TradingBot) : List TradingBot :=
  bots.filter fun b => b.id != id

/-- A `Partial<TradingBot>` value: each field is present (`some`) or absent
(`none`); for fields that are themselves optional in `TradingBot` the payload
is again an `Option`. -/
structure BotUpdates where
  id : Option String
  name : Option String
  status : Option BotStatus
  pnl : Option ℚ
  pnlPercent : Option ℚ
  uptime : Option String
  trades : Option ℕ
  lastTrade : Option String
  alertSettings : Option BotAlertSettings
  activeAlerts : Option (List ActiveAlert)
  targetPnl : Option (Option ℚ)
  strategyCode : Option (Option String)
  history : Option (List BotHistoryEntry)

/-- The empty `Partial<TradingBot>`. -/
def noUpdates : BotUpdates :=
  ⟨none, none, none, none, none, none, none, none, none, none, none, none, none⟩

/-- The object spread `{ ...bot, ...updates }`: fields present in `updates`
override the ones of `bot`. -/
def mergeBot (bot : TradingBot) (u : BotUpdates) : TradingBot :=
  { id := u.id.getD bot.id
    name := u.name.getD bot.name
    status := u.status.getD bot.status
    pnl := u.pnl.getD bot.pnl
    pnlPercent := u.pnlPercent.getD bot.pnlPercent
    uptime := u.uptime.getD bot.uptime
    trades := u.trades.getD bot.trades
    lastTrade := u.lastTrade.getD bot.lastTrade
    alertSettings := u.alertSettings.getD bot.alertSettings
    activeAlerts := u.activeAlerts.getD bot.activeAlerts
    targetPnl := u.targetPnl.getD bot.targetPnl
    strategyCode := u.strategyCode.getD bot.strategyCode
    history := u.history.getD bot.history }

/-- Handler `handleUpdateBot` (`src/unnamed/part_000`, lines 118–120):
`bots.map(bot => bot.id === id ? { ...bot, ...updates } : bot)`. -/
def handleUpdateBot (id : String) (updates : BotUpdates)
    (bots : List TradingBot) : List TradingBot :=
  bots.map fun bot => if bot.id = id then mergeBot bot updates else bot

/-- Numeric value of a decimal digit character. -/
def digitVal (c : Char) : ℕ := c.toNat - 48

/-- Value of a list of decimal digit characters. -/
def digitsToNat (ds : List Char) : ℕ :=
  ds.foldl (fun n c => 10 * n + digitVal c) 0

/-- JavaScript `parseFloat`, restricted to finite decimal literals: skip
leading whitespace, then parse the longest prefix of the form
`[+|-] digits [. digits] [(e|E) [+|-] digits]`; `none` models `NaN` (no
parsable prefix).  The `Infinity` literal has no rational value and does not
occur for the numeric form fields modelled here. -/
def jsParseFloat (s : String) : Option ℚ :=
  let cs := s.data.dropWhile fun c => c.isWhitespace
  let signAndRest : Bool × List Char :=
    match cs with
    | '-' :: rest => (true, rest)
    | '+' :: rest => (false, rest)
    | _ => (false, cs)
  let neg := signAndRest.1
  let cs := signAndRest.2
  let intPart := cs.takeWhile Char.isDigit
  let cs1 := cs.dropWhile Char.isDigit
  let fracAndRest : List Char × List Char :=
    match cs1 with
    | '.' :: rest => (rest.takeWhile Char.isDigit, rest.dropWhile Char.isDigit)
    | _ => ([], cs1)
  let fracPart := fracAndRest.1
  let cs2 := fracAndRest.2
  if intPart.isEmpty ∧ fracPart.isEmpty then none
  else
    let mantissa : ℚ :=
      (digitsToNat intPart : ℚ) + (digitsToNat fracPart : ℚ) / (10 : ℚ) ^ fracPart.length
    let exp : ℤ :=
      match cs2 with
      | e :: rest =>
        if e = 'e' ∨ e = 'E' then
          let esignAndRest : ℤ × List Char :=
            match rest with
            | '-' :: r => (-1, r)
            | '+' :: r => (1, r)
            | _ => (1, rest)
          let eds := esignAndRest.2.takeWhile Char.isDigit
          if eds.isEmpty then 0 else esignAndRest.1 * (digitsToNat eds : ℤ)
        else 0
      | [] => 0
    let value := mantissa * (10 : ℚ) ^ exp
    some (if neg then -value else value)

/-- Model of `parseFloat(s) || 0`: `NaN` is coerced to `0` (and a parsed `0` or `-0`
is already `0`). -/
def jsParseFloatOr0 (s : String) : ℚ := (jsParseFloat s).getD 0

/-- JavaScript `String.prototype.trim`: strip leading and trailing
whitespace. -/
def jsTrim (s : String) : String :=
  ⟨((s.data.dropWhile fun c => c.isWhitespace).reverse.dropWhile fun c =>
      c.isWhitespace).reverse⟩

/-- The alert-settings edit form state of `BotDashboard` (string-valued
number inputs plus the toggle). -/
structure AlertForm where
  id : String
  pnlDropThreshold : String
  maxDowntimeMinutes : String
  notifyOnTradeFailure : Bool
  targetPnl : String

/-- Handler `handleSaveAlerts` (`src/components/StrategyBuilder.tsx`, combined-file
lines 420–434): when a form is open, coerce the string fields with
`parseFloat(...) || 0`, then replace the bot's `alertSettings` and
`targetPnl` through `handleUpdateBot`. -/
def handleSaveAlerts (alertForm : Option AlertForm)
    (bots : List TradingBot) : List TradingBot :=
  match alertForm with
  | some form =>
    let settings : BotAlertSettings :=
      { pnlDropThreshold := jsParseFloatOr0 form.pnlDropThreshold
        maxDowntimeMinutes := jsParseFloatOr0 form.maxDowntimeMinutes
        notifyOnTradeFailure := form.notifyOnTradeFailure }
    handleUpdateBot form.id
      { noUpdates with
        alertSettings := some settings
        targetPnl := some (some (jsParseFloatOr0 form.targetPnl)) }
      bots
  | none => bots

/-- Handler `handleSaveName` (combined-file lines 441–446): only when an edit is in
progress (`editingNameId` truthy) and the trimmed name is nonempty does the
rename go through, storing the trimmed name; otherwise nothing happens. -/
def handleSaveName (editingNameId : Option String) (tempName : String)
    (bots : List TradingBot) : List TradingBot :=
  match editingNameId with
  | some id =>
    if id ≠ "" ∧ jsTrim tempName ≠ "" then
      handleUpdateBot id { noUpdates with name := some (jsTrim tempName) } bots
    else bots
  | none => bots

/-- An `ActiveAlert` annotated with the owning bot's name, as produced by the
fleet-wide alert read. -/
structure FleetAlert extends ActiveAlert where
  botName : String
deriving DecidableEq

/-- Reader `allActiveAlerts` (combined-file lines 401–404):
`bots.flatMap(b => b.activeAlerts.map(a => ({...a, botName: b.name})))`. -/
def allActiveAlerts (bots : List TradingBot) : List FleetAlert :=
  bots.flatMap fun b => b.activeAlerts.map fun a => { toActiveAlert := a, botName := b.name }

/-- Reader `historyBot` (combined-file lines 406–408):
`bots.find(b => b.id === historyBotId) || null`. -/
def historyBot (bots : List TradingBot) (historyBotId : Option String) :
    Option TradingBot :=
  match historyBotId with
  | some id => bots.find? fun b => b.id == id
  | none => none

/-- The history entries the activity-log view renders for a selected id: the
found bot's `history`, or nothing when no bot matches. -/
def shownHistory (bots : List TradingBot) (historyBotId : Option String) :
    List BotHistoryEntry :=
  match historyBot bots historyBotId with
  | some b => b.history
  | none => []

/-- The status filter of the bot dashboard (`'ALL' | 'RUNNING' | 'PAUSED' |
'STOPPED'`). -/
inductive StatusFilter
  | ALL
  | RUNNING
  | PAUSED
  | STOPPED
deriving DecidableEq

/-- The sort key of the bot dashboard (`'NAME' | 'PNL' | 'UPTIME'`). -/
inductive SortKey
  | NAME
  | PNL
  | UPTIME
deriving DecidableEq

/-- First match of the regular expression `(\d+)c` on a character list: the
value of the first maximal digit run immediately followed by `c`. -/
def numBefore (c : Char) : Option ℕ → List Char → Option ℕ
  | _, [] => none
  | acc, x :: xs =>
    if x.isDigit then numBefore c (some ((acc.getD 0) * 10 + digitVal x)) xs
    else if x = c then
      match acc with
      | some n => some n
      | none => numBefore c none xs
    else numBefore c none xs

/-- Function `getHours` inside the `UPTIME` branch of `processedBots`: a label with
`m` but no `h` and no `d` counts as `0.01`; otherwise days and hours are
read off with `/(\d+)d/` and `/(\d+)h/` and combined as `d * 24 + h`. -/
def getHours (str : String) : ℚ :=
  if str.contains 'm' ∧ ¬str.contains 'h' ∧ ¬str.contains 'd' then 1 / 100
  else
    let d := (numBefore 'd' none str.data).getD 0
    let h := (numBefore 'h' none str.data).getD 0
    (d : ℚ) * 24 + (h : ℚ)

/-- The sort comparator of `processedBots` as a boolean "may come before"
relation: `NAME` ascending by name, `PNL` descending by `pnl`, `UPTIME`
descending by parsed uptime hours. -/
def botLe (sortBy : SortKey) (a b : TradingBot) : Bool :=
  match sortBy with
  | .NAME => decide (a.name ≤ b.name)
  | .PNL => decide (b.pnl ≤ a.pnl)
  | .UPTIME => decide (getHours b.uptime ≤ getHours a.uptime)

/-- The filter stage of `processedBots` (combined-file lines 471–487): first
by status (unless `ALL`), then — when the query is nonempty — by
case-insensitive substring match on name or id. -/
def filteredBots (statusFilter : StatusFilter) (searchQuery : String)
    (bots : List TradingBot) : List TradingBot :=
  let result := bots
  let result :=
    match statusFilter with
    | .ALL => result
    | .RUNNING => result.filter fun b => b.status == .RUNNING
    | .PAUSED => result.filter fun b => b.status == .PAUSED
    | .STOPPED => result.filter fun b => b.status == .STOPPED
  if searchQuery ≠ "" then
    let q := searchQuery.toLower
    result.filter fun b =>
      decide (q.data <:+: b.name.toLower.data) || decide (q.data <:+: b.id.toLower.data)
  else result

/-- Query `processedBots` (combined-file lines 471–514): filter, then a stable
sort with the selected comparator (JavaScript `Array.prototype.sort` is
stable, modelled by `List.mergeSort`). -/
def processedBots (statusFilter : StatusFilter) (searchQuery : String)
    (sortBy : SortKey) (bots : List TradingBot) : List TradingBot :=
  (filteredBots statusFilter searchQuery bots).mergeSort (botLe sortBy)

/-! ## Theorems -/

/-- C4: a simulation tick leaves a bot whose status is PAUSED or STOPPED —
its `pnl`, `pnlPercent`, `trades`, `lastTrade` and in fact its whole
record — unchanged. -/
theorem tick_frames_non_running (d : TickDraw) (bot : TradingBot)
    (h : bot.status = BotStatus.PAUSED ∨ bot.status = BotStatus.STOPPED) :
    tickBot d bot = bot := by
  rcases h with h | h <;> simp [tickBot, h]

/-- Witness for C4 at a concrete paused bot and concrete draws. -/
theorem tick_frames_non_running_witness :
    tickBot ⟨3, true, true, true⟩
        { newBot 1 "A" "B" "C" with status := BotStatus.PAUSED } =
      { newBot 1 "A" "B" "C" with status := BotStatus.PAUSED } :=
  tick_frames_non_running _ _ (Or.inl rfl)

/-- C8: a rename whose candidate name trims to the empty string (empty or
whitespace-only) is silently rejected: the store, and in particular the
bot's prior name, is unchanged. -/
theorem rename_rejects_blank (id name : String) (bots : List TradingBot)
    (h : jsTrim name = "") : handleSaveName (some id) name bots = bots := by
  simp [handleSaveName, h]

/-- Witness for C8: a whitespace-only rename of a concrete bot is a no-op. -/
theorem rename_rejects_blank_witness :
    handleSaveName (some "1") "   " [newBot 1 "A" "B" "C"] = [newBot 1 "A" "B" "C"] :=
  rename_rejects_blank "1" "   " _ (by decide)

/-- C1 (amended): `handleToggleBot` maps the targeted bot's status
RUNNING → PAUSED and any non-RUNNING status (PAUSED or STOPPED) → RUNNING,
leaving its other fields and every other bot untouched; it is a no-op only
when no bot has the given id. -/
theorem toggle_spec (id : String) (store : List TradingBot) :
    List.Forall₂ (fun b b' =>
      (b.id = id →
        b'.status = (if b.status = BotStatus.RUNNING then BotStatus.PAUSED else BotStatus.RUNNING) ∧
        b'.id = b.id ∧ b'.name = b.name ∧ b'.pnl = b.pnl ∧ b'.pnlPercent = b.pnlPercent ∧
        b'.uptime = b.uptime ∧ b'.trades = b.trades ∧ b'.lastTrade = b.lastTrade ∧
        b'.alertSettings = b.alertSettings ∧ b'.activeAlerts = b.activeAlerts ∧
        b'.targetPnl = b.targetPnl ∧ b'.strategyCode = b.strategyCode ∧
        b'.history = b.history) ∧
      (b.id ≠ id → b' = b)) store (handleToggleBot id store) ∧
    ((∀ b ∈ store, b.id ≠ id) → handleToggleBot id store = store) := by
  constructor
  · induction store with
    | nil => exact List.Forall₂.nil
    | cons b bs ih =>
      refine List.Forall₂.cons ?_ ih
      constructor
      · intro h
        simp [h]
      · intro h
        simp [h]
  · induction store with
    | nil => intro h; rfl
    | cons b bs ih =>
      intro h
      have hb : b.id ≠ id := h b (List.mem_cons_self b bs)
      have hrest : handleToggleBot id bs = bs :=
        ih fun x hx => h x (List.mem_cons_of_mem b hx)
      simp only [handleToggleBot, List.map_cons] at hrest ⊢
      rw [if_neg hb, hrest]

/-- Witness for C1's amended theorem: toggling an id absent from a concrete
store is a no-op. -/
theorem toggle_spec_witness :
    handleToggleBot "zzz" [newBot 1 "A" "B" "C"] = [newBot 1 "A" "B" "C"] :=
  (toggle_spec "zzz" [newBot 1 "A" "B" "C"]).2 (by decide)

/-- C1 counterexample: toggling a STOPPED bot is not a no-op — the code
flips it to RUNNING. -/
theorem toggle_claim_false :
    ({ newBot 4 "VWAP" "d" "c" with status := BotStatus.STOPPED } : TradingBot).status
        = BotStatus.STOPPED ∧
    (handleToggleBot "4"
        [{ newBot 4 "VWAP" "d" "c" with status := BotStatus.STOPPED }]).map TradingBot.status
        = [BotStatus.RUNNING] ∧
    handleToggleBot "4" [{ newBot 4 "VWAP" "d" "c" with status := BotStatus.STOPPED }]
        ≠ [{ newBot 4 "VWAP" "d" "c" with status := BotStatus.STOPPED }] := by
  refine ⟨rfl, rfl, ?_⟩
  decide

/-- Helper: mapping a store with a function that rewrites only the bots whose
id matches `id` — without changing their id — leaves the sublist of all other
bots exactly as it was. -/
theorem filter_ne_map_ite (g : TradingBot → TradingBot)
    (hg : ∀ b, (g b).id = b.id) (id : String) (l : List TradingBot) :
    ((l.map fun b => if b.id = id then g b else b).filter fun b => b.id != id) =
      l.filter fun b => b.id != id := by
  induction l with
  | nil => rfl
  | cons b bs ih =>
    by_cases h : b.id = id
    · simp [List.filter_cons, h, hg b, ih]
    · simp [List.filter_cons, h, ih]

/-- C10: each single-bot lifecycle operation (toggle, delete, rename, update
alert settings) leaves every bot whose id differs from the target unchanged
and in its prior relative order: the projection of the store to the
untargeted bots is equal before and after. -/
theorem untargeted_bots_frame (id name : String) (form : AlertForm)
    (store : List TradingBot) :
    ((handleToggleBot id store).filter fun b => b.id != id) =
      (store.filter fun b => b.id != id) ∧
    ((handleDeleteBot id store).filter fun b => b.id != id) =
      (store.filter fun b => b.id != id) ∧
    ((handleSaveName (some id) name store).filter fun b => b.id != id) =
      (store.filter fun b => b.id != id) ∧
    ((handleSaveAlerts (some form) store).filter fun b => b.id != form.id) =
      (store.filter fun b => b.id != form.id) := by
  refine ⟨?_, ?_, ?_, ?_⟩
  · exact filter_ne_map_ite
      (fun bot => { bot with
        status := if bot.status = BotStatus.RUNNING then BotStatus.PAUSED else BotStatus.RUNNING })
      (fun b => rfl) id store
  · simp [handleDeleteBot, List.filter_filter]
  · by_cases h : id ≠ "" ∧ jsTrim name ≠ ""
    · simp only [handleSaveName, if_pos h, handleUpdateBot]
      exact filter_ne_map_ite
        (fun bot => mergeBot bot { noUpdates with name := some (jsTrim name) })
        (fun b => rfl) id store
    · simp [handleSaveName, if_neg h]
  · simp only [handleSaveAlerts, handleUpdateBot]
    exact filter_ne_map_ite
      (fun bot => mergeBot bot
        { noUpdates with
          alertSettings := some
            { pnlDropThreshold := jsParseFloatOr0 form.pnlDropThreshold
              maxDowntimeMinutes := jsParseFloatOr0 form.maxDowntimeMinutes
              notifyOnTradeFailure := form.notifyOnTradeFailure }
          targetPnl := some (some (jsParseFloatOr0 form.targetPnl)) })
      (fun b => rfl) form.id store

/-- C9: deleting an id removes exactly the bot with that id (its owned
history and alerts being fields of the record go with it, in the same single
step); it is a no-op when no bot has that id; and the history query for a
deleted or unknown id yields the empty list, not an error. -/
theorem delete_spec (id : String) (store : List TradingBot) :
    (∀ b ∈ handleDeleteBot id store, b ∈ store ∧ b.id ≠ id) ∧
    ((∀ b ∈ store, b.id ≠ id) → handleDeleteBot id store = store) ∧
    shownHistory (handleDeleteBot id store) (some id) = [] ∧
    ((∀ b ∈ store, b.id ≠ id) → shownHistory store (some id) = []) := by
  refine ⟨?_, ?_, ?_, ?_⟩
  · intro b hb
    rw [handleDeleteBot, List.mem_filter] at hb
    exact ⟨hb.1, by simpa using hb.2⟩
  · intro h
    rw [handleDeleteBot, List.filter_eq_self]
    intro b hb
    simpa using h b hb
  · rw [shownHistory, historyBot]
    have : (handleDeleteBot id store).find? (fun b => b.id == id) = none := by
      rw [List.find?_eq_none]
      intro b hb
      rw [handleDeleteBot, List.mem_filter] at hb
      simpa using hb.2
    rw [this]
  · intro h
    rw [shownHistory, historyBot]
    have : store.find? (fun b => b.id == id) = none := by
      rw [List.find?_eq_none]
      intro b hb
      simpa using h b hb
    rw [this]

/-- Witness for C9: deleting an unknown id from a concrete store is a no-op,
and its history query is empty. -/
theorem delete_spec_witness :
    handleDeleteBot "9" [newBot 1 "A" "B" "C"] = [newBot 1 "A" "B" "C"] ∧
    shownHistory [newBot 1 "A" "B" "C"] (some "9") = [] :=
  ⟨(delete_spec "9" [newBot 1 "A" "B" "C"]).2.1 (by decide),
   (delete_spec "9" [newBot 1 "A" "B" "C"]).2.2.2 (by decide)⟩

/-- C7: saving the alert form replaces the targeted bot's alert
configuration and target wholesale with the coerced form values, leaves all
of its other fields and all other bots unchanged, and coerces a non-numeric
threshold such as "abc" to 0 instead of failing (the handler is total). -/
theorem saveAlerts_spec (form : AlertForm) (bots : List TradingBot) :
    List.Forall₂ (fun b b' =>
      (b.id = form.id →
        b'.alertSettings =
          { pnlDropThreshold := jsParseFloatOr0 form.pnlDropThreshold
            maxDowntimeMinutes := jsParseFloatOr0 form.maxDowntimeMinutes
            notifyOnTradeFailure := form.notifyOnTradeFailure } ∧
        b'.targetPnl = some (jsParseFloatOr0 form.targetPnl) ∧
        b'.id = b.id ∧ b'.name = b.name ∧ b'.status = b.status ∧ b'.pnl = b.pnl ∧
        b'.pnlPercent = b.pnlPercent ∧ b'.uptime = b.uptime ∧ b'.trades = b.trades ∧
        b'.lastTrade = b.lastTrade ∧ b'.activeAlerts = b.activeAlerts ∧
        b'.strategyCode = b.strategyCode ∧ b'.history = b.history) ∧
      (b.id ≠ form.id → b' = b)) bots (handleSaveAlerts (some form) bots) ∧
    jsParseFloatOr0 "abc" = 0 := by
  constructor
  · simp only [handleSaveAlerts, handleUpdateBot]
    induction bots with
    | nil => exact List.Forall₂.nil
    | cons b bs ih =>
      refine List.Forall₂.cons ?_ ih
      constructor
      · intro h
        simp [h, mergeBot, noUpdates]
      · intro h
        simp [h]
  · decide

/-- Witness for C7 at a concrete form with a non-numeric threshold. -/
theorem saveAlerts_spec_witness : jsParseFloatOr0 "abc" = 0 :=
  (saveAlerts_spec ⟨"1", "abc", "60", true, "5000"⟩ []).2

/-- C3 (amended): after a tick on a RUNNING bot the stored `pnl` is the
raw new PnL rounded to 2 decimals and the stored `pnlPercent` is the raw
(pre-rounding) new PnL over the 10000 capital base times 100, rounded to 2
decimals — the percent is derived from the raw PnL, not from the stored
rounded PnL; a deployed bot starts with `pnl = 0` and `pnlPercent = 0`,
which satisfy the relation exactly; and toggle, rename, update-alert
settings and delete never touch any bot's `pnl` or `pnlPercent`. -/
theorem pnl_percent_spec (d : TickDraw) (b : TradingBot) (now : ℕ)
    (nm ds cd id name : String) (form : AlertForm) (store : List TradingBot) :
    (b.status = BotStatus.RUNNING →
      (tickBot d b).pnl =
        toFixed2 (b.pnl + d.volatility * (if d.dirUp then 1 else -1)) ∧
      (tickBot d b).pnlPercent =
        toFixed2 ((b.pnl + d.volatility * (if d.dirUp then 1 else -1)) / 10000 * 100)) ∧
    ((newBot now nm ds cd).pnl = 0 ∧ (newBot now nm ds cd).pnlPercent = 0) ∧
    ((handleToggleBot id store).map fun x => (x.pnl, x.pnlPercent)) =
      (store.map fun x => (x.pnl, x.pnlPercent)) ∧
    ((handleSaveName (some id) name store).map fun x => (x.pnl, x.pnlPercent)) =
      (store.map fun x => (x.pnl, x.pnlPercent)) ∧
    ((handleSaveAlerts (some form) store).map fun x => (x.pnl, x.pnlPercent)) =
      (store.map fun x => (x.pnl, x.pnlPercent)) ∧
    (∀ x ∈ handleDeleteBot id store, x ∈ store) := by
  refine ⟨?_, ⟨rfl, rfl⟩, ?_, ?_, ?_, ?_⟩
  · intro h
    exact ⟨by simp [tickBot, h], by simp [tickBot, h]⟩
  · induction store with
    | nil => rfl
    | cons x xs ih =>
      simp only [handleToggleBot, List.map_cons] at ih ⊢
      by_cases hx : x.id = id
      · simp [hx, ih]
      · simp [hx, ih]
  · by_cases h : id ≠ "" ∧ jsTrim name ≠ ""
    · simp only [handleSaveName, if_pos h, handleUpdateBot, List.map_map]
      apply List.map_congr_left
      intro x _
      by_cases hx : x.id = id
      · simp [hx, mergeBot, noUpdates]
      · simp [hx]
    · simp [handleSaveName, if_neg h]
  · simp only [handleSaveAlerts, handleUpdateBot, List.map_map]
    apply List.map_congr_left
    intro x _
    by_cases hx : x.id = form.id
    · simp [hx, mergeBot, noUpdates]
    · simp [hx]
  · intro x hx
    exact (List.mem_filter.1 hx).1

/-- Witness for C3's amended theorem: a concrete tick on a freshly deployed
(RUNNING) bot with a concrete draw, and the frame conjuncts on a concrete
store. -/
theorem pnl_percent_spec_witness :
    (tickBot ⟨2, true, false, false⟩ (newBot 0 "A" "B" "C")).pnl = toFixed2 (0 + 2 * 1) ∧
    (tickBot ⟨2, true, false, false⟩ (newBot 0 "A" "B" "C")).pnlPercent =
      toFixed2 ((0 + 2 * 1) / 10000 * 100) := by
  have h := (pnl_percent_spec ⟨2, true, false, false⟩ (newBot 0 "A" "B" "C") 0
    "A" "B" "C" "1" "n" ⟨"1", "5", "60", true, "5000"⟩ []).1 rfl
  simpa [newBot] using h

/-- C3 counterexample: the stored `pnlPercent` is computed from the raw
(pre-rounding) PnL, so immediately after a tick it can differ from
`round(stored pnl / 10000 × 100, 2)`: with PnL move 4.49501 the stored pnl
is 4.50 and the stored percent 0.04, while the claimed recomputation from
the stored pnl gives 0.05. -/
theorem pnl_percent_claim_false :
    (newBot 0 "A" "B" "C").status = BotStatus.RUNNING ∧
    (tickBot ⟨449501 / 100000, true, false, false⟩ (newBot 0 "A" "B" "C")).pnlPercent ≠
      toFixed2
        ((tickBot ⟨449501 / 100000, true, false, false⟩ (newBot 0 "A" "B" "C")).pnl
          / 10000 * 100) := by
  constructor
  · rfl
  · simp only [tickBot, newBot]
    norm_num [toFixed2, round_eq]

/-- C5 (amended): deploy prepends exactly one new bot — status RUNNING,
zeroed metrics, empty history, no active alerts, the default alert
configuration, the given name — with the current-timestamp string as its
identifier, leaving every existing bot unchanged behind it; the new
identifier is distinct from all existing ones provided no existing bot
already carries that timestamp string as id (the code performs no
freshness check). -/
theorem deploy_spec (now : ℕ) (name desc code : String)
    (store : List TradingBot) :
    (∃ nb, handleDeployBot now name desc code store = nb :: store ∧
      nb.status = BotStatus.RUNNING ∧ nb.pnl = 0 ∧ nb.pnlPercent = 0 ∧
      nb.trades = 0 ∧ nb.history = [] ∧ nb.activeAlerts = [] ∧
      nb.alertSettings =
        { pnlDropThreshold := 5, maxDowntimeMinutes := 60, notifyOnTradeFailure := true } ∧
      nb.name = name ∧ nb.id = toString now) ∧
    (∀ nb b, handleDeployBot now name desc code store = nb :: store →
      (∀ x ∈ store, x.id ≠ toString now) → b ∈ store → b.id ≠ nb.id) := by
  constructor
  · exact ⟨newBot now name desc code, rfl, rfl, rfl, rfl, rfl, rfl, rfl, rfl, rfl, rfl⟩
  · intro nb b heq hfresh hb
    have hnb : newBot now name desc code = nb := (List.cons.inj heq).1
    rw [← hnb]
    exact hfresh b hb

/-- Witness for C5: deploying at clock 7 into a concrete store whose only
id is "1" yields an id distinct from it. -/
theorem deploy_spec_witness :
    (newBot 1 "X" "Y" "Z").id ≠ (newBot 7 "A" "B" "C").id :=
  (deploy_spec 7 "A" "B" "C" [newBot 1 "X" "Y" "Z"]).2 (newBot 7 "A" "B" "C")
    (newBot 1 "X" "Y" "Z") rfl (by decide) (by simp)

/-- C5 counterexample: two deploys at the same clock value produce a second
bot whose identifier equals the one already present — the assigned id is
`Date.now().toString()` with no freshness check. -/
theorem deploy_claim_false :
    (handleDeployBot 0 "A" "B" "C" (handleDeployBot 0 "A" "B" "C" [])).map TradingBot.id
      = ["0", "0"] ∧
    ¬ ((handleDeployBot 0 "A" "B" "C" (handleDeployBot 0 "A" "B" "C" [])).map
        TradingBot.id).Nodup := by
  constructor
  · rfl
  · decide

/-- C2 (amended): the fleet alert read does not derive alerts from metrics
or thresholds — it returns exactly the stored `activeAlerts` of each bot,
annotated with the owning bot's name: it is invariant under arbitrary
changes to every bot's `pnlPercent` and `pnlDropThreshold`, and its length
is the total number of stored alerts. -/
theorem alerts_read_spec (bots : List TradingBot) (q th : ℚ) :
    allActiveAlerts (bots.map fun b =>
      { b with
        pnlPercent := q
        alertSettings := { b.alertSettings with pnlDropThreshold := th } }) =
      allActiveAlerts bots ∧
    (allActiveAlerts bots).length = (bots.map fun b => b.activeAlerts.length).sum := by
  constructor
  · induction bots with
    | nil => rfl
    | cons b bs ih =>
      simp only [allActiveAlerts, List.map_cons, List.flatMap_cons] at ih ⊢
      rw [ih]
  · induction bots with
    | nil => rfl
    | cons b bs ih =>
      simp [allActiveAlerts, List.flatMap_cons] at ih ⊢
      rw [ih]

/-- C2 counterexample: a bot reachable by deploy, one losing tick, and an
alert-settings update has PnL percent −0.06 at or below minus its threshold
0.05, yet the alert read yields no alert at all for it (and in particular
not exactly one WARNING PNL alert): alerts are never derived from the
threshold. -/
theorem alerts_claim_false :
    allActiveAlerts
      (handleSaveAlerts (some ⟨"0", "0.05", "60", true, "5000"⟩)
        (tickStore (fun _ => ⟨6, false, false, false⟩) 0
          (handleDeployBot 0 "Test Bot" "desc" "code" []))) = [] ∧
    ((handleSaveAlerts (some ⟨"0", "0.05", "60", true, "5000"⟩)
        (tickStore (fun _ => ⟨6, false, false, false⟩) 0
          (handleDeployBot 0 "Test Bot" "desc" "code" []))).map fun b =>
        (b.pnlPercent, b.alertSettings.pnlDropThreshold)) = [(-3/50, 1/20)] ∧
    ((-3 : ℚ)/50 ≤ -(1/20)) := by
  have hthr : jsParseFloatOr0 "0.05" = 1/20 := by
    rw [show jsParseFloatOr0 "0.05" =
      (((digitsToNat ['0'] : ℚ) + (digitsToNat ['0', '5'] : ℚ) / (10 : ℚ) ^ 2) *
        (10 : ℚ) ^ (0 : ℤ)) from rfl]
    norm_num [digitsToNat, digitVal, show ('0').toNat = 48 from rfl,
      show ('5').toNat = 53 from rfl]
  have hpct : toFixed2 ((0 + 6 * (-1 : ℚ)) / 10000 * 100) = -3/50 := by
    norm_num [toFixed2, round_eq]
  refine ⟨rfl, ?_, by norm_num⟩
  rw [show ((handleSaveAlerts (some ⟨"0", "0.05", "60", true, "5000"⟩)
        (tickStore (fun _ => ⟨6, false, false, false⟩) 0
          (handleDeployBot 0 "Test Bot" "desc" "code" []))).map fun b =>
        (b.pnlPercent, b.alertSettings.pnlDropThreshold)) =
      [(toFixed2 ((0 + 6 * (-1 : ℚ)) / 10000 * 100), jsParseFloatOr0 "0.05")] from rfl]
  rw [hthr, hpct]

/-- C6: the fleet query is a pure projection (the store snapshot is an
immutable input and the result a fresh list, so determinism and
non-mutation hold by construction); sorting the PnL-sorted result again
with the same comparator returns it unchanged (idempotence); and bots with
equal `pnl` appear in the result in exactly their relative order in the
filtered snapshot (stability of the sort). -/
theorem processed_pnl_sort_spec (sf : StatusFilter) (q : String)
    (bots : List TradingBot) :
    (processedBots sf q SortKey.PNL bots).mergeSort (botLe SortKey.PNL) =
      processedBots sf q SortKey.PNL bots ∧
    ∀ v : ℚ, ((processedBots sf q SortKey.PNL bots).filter fun b => decide (b.pnl = v)) =
      ((filteredBots sf q bots).filter fun b => decide (b.pnl = v)) := by
  have htrans : ∀ a b c : TradingBot,
      botLe SortKey.PNL a b → botLe SortKey.PNL b c → botLe SortKey.PNL a c := by
    intro a b c hab hbc
    simp only [botLe, decide_eq_true_eq] at hab hbc ⊢
    exact le_trans hbc hab
  have htotal : ∀ a b : TradingBot, botLe SortKey.PNL a b || botLe SortKey.PNL b a := by
    intro a b
    simp only [botLe, Bool.or_eq_true, decide_eq_true_eq]
    exact le_total b.pnl a.pnl
  constructor
  · exact List.mergeSort_of_sorted (List.sorted_mergeSort htrans htotal _)
  · intro v
    simp only [processedBots]
    set L := filteredBots sf q bots with hL
    have hpair : (L.filter fun b => decide (b.pnl = v)).Pairwise
        fun a b => botLe SortKey.PNL a b := by
      apply List.pairwise_of_forall_mem_list
      intro a ha b hb
      have ha' := List.of_mem_filter ha
      have hb' := List.of_mem_filter hb
      simp only [decide_eq_true_eq] at ha' hb'
      simp [botLe, ha', hb']
    have hsub : List.Sublist (L.filter fun b => decide (b.pnl = v))
        (L.mergeSort (botLe SortKey.PNL)) :=
      List.sublist_mergeSort htrans htotal hpair (List.filter_sublist L)
    have hsub2 : List.Sublist (L.filter fun b => decide (b.pnl = v))
        ((L.mergeSort (botLe SortKey.PNL)).filter fun b => decide (b.pnl = v)) := by
      have h2 := hsub.filter fun b => decide (b.pnl = v)
      simp only [List.filter_filter, Bool.and_self] at h2
      exact h2
    have hlen : ((L.mergeSort (botLe SortKey.PNL)).filter fun b => decide (b.pnl = v)).length =
        (L.filter fun b => decide (b.pnl = v)).length :=
      ((List.mergeSort_perm L (botLe SortKey.PNL)).filter _).length_eq
    exact (hsub2.eq_of_length hlen.symm).symm
